import Mathlib

/-
  Verification of the CampusLens geodetic vector-relocation core and its
  per-connection proximity state machine.

  The TypeScript source computes with JavaScript numbers and decimal.js
  values.  Both follow the IEEE conventions for the special values NaN,
  Infinity and -Infinity, and are otherwise modelled here by exact real
  numbers.  The
  type `JSNum` below captures exactly that value space, so the code paths
  that depend on non-finite inputs (validation, NaN propagation) are
  representable.
-/

noncomputable section

namespace CampusLens

/-- A JavaScript / decimal.js numeric value: NaN, +Infinity, -Infinity or a
finite value (modelled as an exact real number). -/
inductive JSNum where
  | nan : JSNum
  | posInf : JSNum
  | negInf : JSNum
  | fin : ℝ → JSNum

namespace JSNum

/-- Mirrors JavaScript `isFinite` / decimal.js `isFinite()`. -/
def isFinite : JSNum → Bool
  | fin _ => true
  | _ => false

/-- Addition with the IEEE special-value rules used by JS and decimal.js. -/
def add : JSNum → JSNum → JSNum
  | nan, _ => nan
  | _, nan => nan
  | posInf, negInf => nan
  | negInf, posInf => nan
  | posInf, _ => posInf
  | negInf, _ => negInf
  | fin _, posInf => posInf
  | fin _, negInf => negInf
  | fin a, fin b => fin (a + b)

/-- Negation. -/
def neg : JSNum → JSNum
  | nan => nan
  | posInf => negInf
  | negInf => posInf
  | fin a => fin (-a)

/-- Subtraction, `a - b = a + (-b)` (agrees with the IEEE rules). -/
def sub (x y : JSNum) : JSNum := add x (neg y)

/-- Multiplication with the IEEE special-value rules (`Inf * 0 = NaN`). -/
def mul : JSNum → JSNum → JSNum
  | nan, _ => nan
  | _, nan => nan
  | posInf, posInf => posInf
  | posInf, negInf => negInf
  | negInf, posInf => negInf
  | negInf, negInf => posInf
  | posInf, fin b => if b = 0 then nan else if 0 < b then posInf else negInf
  | negInf, fin b => if b = 0 then nan else if 0 < b then negInf else posInf
  | fin a, posInf => if a = 0 then nan else if 0 < a then posInf else negInf
  | fin a, negInf => if a = 0 then nan else if 0 < a then negInf else posInf
  | fin a, fin b => fin (a * b)

/-- Division with the IEEE special-value rules (division by zero gives a
signed infinity, `0/0 = NaN`, `Inf/Inf = NaN`). -/
def div : JSNum → JSNum → JSNum
  | nan, _ => nan
  | _, nan => nan
  | posInf, posInf => nan
  | posInf, negInf => nan
  | negInf, posInf => nan
  | negInf, negInf => nan
  | posInf, fin b => if 0 ≤ b then posInf else negInf
  | negInf, fin b => if 0 ≤ b then negInf else posInf
  | fin _, posInf => fin 0
  | fin _, negInf => fin 0
  | fin a, fin b =>
      if b = 0 then (if a = 0 then nan else if 0 < a then posInf else negInf)
      else fin (a / b)

/-- Square root; negative arguments give NaN as in `Math.sqrt` / decimal.js. -/
def sqrt : JSNum → JSNum
  | nan => nan
  | posInf => posInf
  | negInf => nan
  | fin a => if a < 0 then nan else fin (Real.sqrt a)

/-- Sine; `Math.sin` returns NaN on every non-finite argument. -/
def sin : JSNum → JSNum
  | fin a => fin (Real.sin a)
  | _ => nan

/-- Cosine; `Math.cos` returns NaN on every non-finite argument. -/
def cos : JSNum → JSNum
  | fin a => fin (Real.cos a)
  | _ => nan

end JSNum

/-- The two-argument arctangent on real numbers, with the quadrant
conventions of `Math.atan2`. -/
def realAtan2 (y x : ℝ) : ℝ :=
  if 0 < x then Real.arctan (y / x)
  else if x < 0 then
    (if 0 ≤ y then Real.arctan (y / x) + Real.pi else Real.arctan (y / x) - Real.pi)
  else
    (if 0 < y then Real.pi / 2 else if y < 0 then -(Real.pi / 2) else 0)

namespace JSNum

/-- The `Math.atan2` special-value table over `JSNum`. -/
def atan2 : JSNum → JSNum → JSNum
  | nan, _ => nan
  | _, nan => nan
  | posInf, posInf => fin (Real.pi / 4)
  | posInf, negInf => fin (3 * Real.pi / 4)
  | negInf, posInf => fin (-(Real.pi / 4))
  | negInf, negInf => fin (-(3 * Real.pi / 4))
  | posInf, fin _ => fin (Real.pi / 2)
  | negInf, fin _ => fin (-(Real.pi / 2))
  | fin _, posInf => fin 0
  | fin y, negInf => if 0 ≤ y then fin Real.pi else fin (-Real.pi)
  | fin y, fin x => fin (realAtan2 y x)

/-- The decimal.js `greaterThan` comparison; any comparison against NaN is
false. -/
def greaterThan : JSNum → JSNum → Bool
  | nan, _ => false
  | _, nan => false
  | posInf, posInf => false
  | posInf, _ => true
  | negInf, _ => false
  | fin _, posInf => false
  | fin _, negInf => true
  | fin a, fin b => decide (b < a)

end JSNum

/-- A geodetic position as the source's `Geo` type: latitude and longitude
in degrees, optional height in meters (`h?: number`). -/
structure Geo where
  lat : JSNum
  lon : JSNum
  h : Option JSNum

/-- An east-north-up vector as the source's `RelativeVec` type. -/
structure RelativeVec where
  e : JSNum
  n : JSNum
  u : JSNum

/-- An ECEF position, `{ X, Y, Z }` in meters. -/
structure EcefPos where
  X : JSNum
  Y : JSNum
  Z : JSNum

/-- An ECEF delta vector, `{ dX, dY, dZ }` in meters. -/
structure EcefDelta where
  dX : JSNum
  dY : JSNum
  dZ : JSNum

/-- The source's `DEFAULT_H0 = 370` default height (meters). -/
def DEFAULT_H0 : JSNum := .fin 370

/-- The height actually used by `computeAssetPlacementVector`:
`typeof g.h === "number" ? g.h : DEFAULT_H0`.  Any present number (finite
or not) is used as-is; the default applies only when the field is absent. -/
def effectiveHeight : Option JSNum → JSNum
  | some x => x
  | none => DEFAULT_H0

/-- Degrees to radians, `(deg * Math.PI) / 180`, as in the source. -/
def deg2rad (x : JSNum) : JSNum := (x.mul (.fin Real.pi)).div (.fin 180)

/-- WGS84 semi-major axis in meters. -/
def wgs84A : ℝ := 6378137.0

/-- WGS84 flattening. -/
def wgs84F : ℝ := 1 / 298.257223563

/-- WGS84 squared eccentricity, `f * (2 - f)`. -/
def wgs84E2 : ℝ := wgs84F * (2 - wgs84F)

/-- Modelled from the spec: the repository imports `geodeticToEcef` from a
`geo-converter` module that is not among the source files; spec section 4.1
specifies the standard closed-form conversion on the WGS84 ellipsoid with
prime-vertical radius `N = a / sqrt(1 - e^2 sin^2 lat)`. -/
def geodeticToEcef (latRad lonRad hgt : JSNum) : EcefPos :=
  let sinLat := latRad.sin
  let cosLat := latRad.cos
  let sinLon := lonRad.sin
  let cosLon := lonRad.cos
  let bigN := (JSNum.fin wgs84A).div
    (((JSNum.fin 1).sub ((JSNum.fin wgs84E2).mul (sinLat.mul sinLat))).sqrt)
  { X := ((bigN.add hgt).mul cosLat).mul cosLon
    Y := ((bigN.add hgt).mul cosLat).mul sinLon
    Z := ((bigN.mul ((JSNum.fin 1).sub (JSNum.fin wgs84E2))).add hgt).mul sinLat }

/-- Modelled from the spec: the repository imports `enuToEcefDelta` from the
missing `geo-converter` module; spec section 4.1 specifies it as the fixed
rotation from the ENU frame at the reference point into ECEF, the transpose
of the (orthonormal) ECEF-to-ENU matrix implemented in the source's
`ecefDeltaToEnu`. -/
def enuToEcefDelta (e n u : JSNum) (latRad lonRad : JSNum) : EcefDelta :=
  let sinLat := latRad.sin
  let cosLat := latRad.cos
  let sinLon := lonRad.sin
  let cosLon := lonRad.cos
  { dX := ((sinLon.neg.mul e).add ((sinLat.neg.mul cosLon).mul n)).add
      ((cosLat.mul cosLon).mul u)
    dY := ((cosLon.mul e).add ((sinLat.neg.mul sinLon).mul n)).add
      ((cosLat.mul sinLon).mul u)
    dZ := (cosLat.mul n).add (sinLat.mul u) }

/-- The source's `ecefDeltaToEnu`: rotates an ECEF delta vector into the
local ENU frame at the reference point (compute-asset-vector module). -/
def ecefDeltaToEnu (dX dY dZ : JSNum) (latRad lonRad : JSNum) : RelativeVec :=
  let sinLat := latRad.sin
  let cosLat := latRad.cos
  let sinLon := lonRad.sin
  let cosLon := lonRad.cos
  { e := (sinLon.neg.mul dX).add (cosLon.mul dY)
    n := (((sinLat.neg.mul cosLon).mul dX).add ((sinLat.neg.mul sinLon).mul dY)).add
      (cosLat.mul dZ)
    u := (((cosLat.mul cosLon).mul dX).add ((cosLat.mul sinLon).mul dY)).add
      (sinLat.mul dZ) }

/-- The source's `computeAssetPlacementVector(creator, user, vCA_relative)`:
validates finiteness of the four lat/lon fields, substitutes the default
height for absent heights, converts both positions to ECEF, moves the
creator-to-asset ENU vector into ECEF, forms the user-to-asset ECEF delta
and rotates it into the user's ENU frame.  The thrown
`Error("Invalid lat/lon.")` is modelled as an `Except.error`. -/
def computeAssetPlacementVector (creator user : Geo) (vCA : RelativeVec) :
    Except String RelativeVec :=
  if !creator.lat.isFinite || !creator.lon.isFinite ||
      !user.lat.isFinite || !user.lon.isFinite then
    .error "Invalid lat/lon."
  else
    let hC := effectiveHeight creator.h
    let hU := effectiveHeight user.h
    let latC := deg2rad creator.lat
    let lonC := deg2rad creator.lon
    let latU := deg2rad user.lat
    let lonU := deg2rad user.lon
    let pc := geodeticToEcef latC lonC hC
    let delta := enuToEcefDelta vCA.e vCA.n vCA.u latC lonC
    let paX := pc.X.add delta.dX
    let paY := pc.Y.add delta.dY
    let paZ := pc.Z.add delta.dZ
    let pu := geodeticToEcef latU lonU hU
    let dX := paX.sub pu.X
    let dY := paY.sub pu.Y
    let dZ := paZ.sub pu.Z
    .ok (ecefDeltaToEnu dX dY dZ latU lonU)

/-- The prime-vertical radius of curvature on WGS84 as a real number. -/
def primeVerticalN (lat : ℝ) : ℝ :=
  wgs84A / Real.sqrt (1 - wgs84E2 * (Real.sin lat * Real.sin lat))

/-- A refined position, as the socket handler's
`{ refined_lon, refined_lat }` objects. -/
structure Pos where
  refined_lon : JSNum
  refined_lat : JSNum

/-- The per-connection states of the socket handler:
`'accept' | 'ok' | 'off_boundaries'`. -/
inductive ClientState where
  | accept : ClientState
  | ok : ClientState
  | off_boundaries : ClientState
deriving DecidableEq

/-- The distinct `message` strings the handler emits with
`position_status`. -/
inductive StatusMsg where
  | initialPositionRecorded : StatusMsg
  | backWithinBoundaries : StatusMsg
  | positionUpdated : StatusMsg
deriving DecidableEq

/-- The socket emissions of the `user_position` handler relevant to the
state machine: `position_status` messages and the `off_boundaries`
notification (whose asset payload is produced by an external database
query and is abstracted to the triggering position). -/
inductive Event where
  | position_status (state : ClientState) (message : StatusMsg) (position : Pos)
  | off_boundaries (position : Pos)

/-- The mutable per-connection record `ClientInfo` (only the fields touched
by the `user_position` handler). -/
structure ClientInfo where
  currentPosition : Option Pos
  initialPosition : Option Pos
  state : ClientState

/-- The possible outcomes of the external `triangulate_coordinate` database
call: a row set with a first row, an empty row set, or a thrown error. -/
inductive RefineOutcome where
  | rows (refined : Pos) : RefineOutcome
  | empty : RefineOutcome
  | failure : RefineOutcome

/-- The source's `triangulateCoordinate(lat, lon)`: returns the first row
when the query yields rows, and falls back to the original coordinates both
when the query returns no rows and when it throws. -/
def triangulateCoordinate (lat lon : JSNum) : RefineOutcome → Pos
  | .rows r => r
  | .empty => { refined_lon := lon, refined_lat := lat }
  | .failure => { refined_lon := lon, refined_lat := lat }

/-- The source's `calculateDistance(lat1, lon1, lat2, lon2)`: haversine
distance in meters on the mean Earth radius `R = 6371e3`, with the source's
exact mix of decimal and float operations collapsed onto `JSNum`. -/
def calculateDistance (lat1 lon1 lat2 lon2 : JSNum) : JSNum :=
  let bigR := JSNum.fin 6371000
  let phi1 := (lat1.mul (.fin Real.pi)).div (.fin 180)
  let phi2 := (lat2.mul (.fin Real.pi)).div (.fin 180)
  let dPhi := ((lat2.sub lat1).mul (.fin Real.pi)).div (.fin 180)
  let dLmb := ((lon2.sub lon1).mul (.fin Real.pi)).div (.fin 180)
  let sinHalfDeltaPhi := (dPhi.div (.fin 2)).sin
  let sinHalfDeltaLambda := (dLmb.div (.fin 2)).sin
  let a := (sinHalfDeltaPhi.mul sinHalfDeltaPhi).add
    ((phi1.cos.mul phi2.cos).mul (sinHalfDeltaLambda.mul sinHalfDeltaLambda))
  let c := (JSNum.fin 2).mul (JSNum.atan2 a.sqrt (((JSNum.fin 1).sub a).sqrt))
  bigR.mul c

/-- The 50 meter boundary threshold (`new Decimal(50)` in the source). -/
def boundaryThreshold : JSNum := .fin 50

/-- The body of the `user_position` handler after coordinate refinement:
updates `currentPosition`, records the first sample as the reference, and
otherwise runs the threshold test against the reference position.  The
returned list contains the emissions sent back to this client. -/
def handleRefined (client : ClientInfo) (refinedPosition : Pos) :
    ClientInfo × List Event :=
  let client1 := { client with currentPosition := some refinedPosition }
  match client.initialPosition with
  | none =>
    ({ client1 with initialPosition := some refinedPosition, state := .accept },
      [.position_status .accept .initialPositionRecorded refinedPosition])
  | some initial =>
    let distance := calculateDistance initial.refined_lat initial.refined_lon
      refinedPosition.refined_lat refinedPosition.refined_lon
    if distance.greaterThan boundaryThreshold then
      if client1.state = ClientState.accept ∨ client1.state = ClientState.ok then
        ({ client1 with state := .off_boundaries }, [.off_boundaries refinedPosition])
      else
        (client1, [])
    else
      if client1.state = ClientState.off_boundaries then
        ({ client1 with state := .ok },
          [.position_status .ok .backWithinBoundaries refinedPosition])
      else if client1.state = ClientState.accept then
        ({ client1 with state := .ok },
          [.position_status .ok .positionUpdated refinedPosition])
      else
        (client1, [])

/-- The full `user_position` handler for one sample: refine the raw
coordinates (with fallback), then process the refined position. -/
def handleUserPosition (client : ClientInfo) (lat lon : JSNum)
    (refi : RefineOutcome) : ClientInfo × List Event :=
  handleRefined client (triangulateCoordinate lat lon refi)

/-- One raw position sample together with the outcome of its external
refinement call. -/
structure Sample where
  lat : JSNum
  lon : JSNum
  refi : RefineOutcome

/-- Sequential processing of a session's samples in arrival order. -/
def processSamples (client : ClientInfo) (samples : List Sample) : ClientInfo :=
  samples.foldl (fun c s => (handleUserPosition c s.lat s.lon s.refi).1) client

/-- The spec's abstract state names for the state machine. -/
inductive SpecState where
  | initializing : SpecState
  | settled : SpecState
  | outOfRange : SpecState
deriving DecidableEq

/-- The spec's abstraction of a session state: `Initializing` while no
reference is set; with a reference, `off_boundaries` is `OutOfRange` and
the `accept` / `ok` states are `Settled`. -/
def specState (c : ClientInfo) : SpecState :=
  match c.initialPosition with
  | none => .initializing
  | some _ =>
    match c.state with
    | .off_boundaries => .outOfRange
    | _ => .settled

/-- The spec's haversine great-circle distance on real numbers:
`a = sin^2(dLat/2) + cos(lat1) cos(lat2) sin^2(dLon/2)` and
`d = 2 R atan2(sqrt a, sqrt (1 - a))` with `R = 6371000` and degree inputs
converted to radians. -/
def greatCircleDistance (lat1 lon1 lat2 lon2 : ℝ) : ℝ :=
  let phi1 := lat1 * Real.pi / 180
  let phi2 := lat2 * Real.pi / 180
  let dPhi := (lat2 - lat1) * Real.pi / 180
  let dLmb := (lon2 - lon1) * Real.pi / 180
  let a := Real.sin (dPhi / 2) ^ 2 +
    Real.cos phi1 * Real.cos phi2 * Real.sin (dLmb / 2) ^ 2
  2 * 6371000 * realAtan2 (Real.sqrt a) (Real.sqrt (1 - a))

/-- Within-tolerance comparison of two JS numbers: both are finite and
their values differ by at most `tol` meters.  A NaN component is never
within tolerance of anything, as in JS. -/
def withinTol (a b : JSNum) (tol : ℝ) : Prop :=
  ∃ x y : ℝ, a = .fin x ∧ b = .fin y ∧ |x - y| ≤ tol

namespace JSNum

@[simp] theorem isFinite_fin (a : ℝ) : (fin a).isFinite = true := rfl

@[simp] theorem isFinite_nan : (nan).isFinite = false := rfl

@[simp] theorem isFinite_posInf : (posInf).isFinite = false := rfl

@[simp] theorem isFinite_negInf : (negInf).isFinite = false := rfl

@[simp] theorem add_fin_fin (a b : ℝ) : add (fin a) (fin b) = fin (a + b) := rfl

@[simp] theorem neg_fin (a : ℝ) : neg (fin a) = fin (-a) := rfl

@[simp] theorem neg_nan : neg nan = nan := rfl

@[simp] theorem sub_fin_fin (a b : ℝ) : sub (fin a) (fin b) = fin (a - b) := by
  show fin (a + -b) = fin (a - b)
  rw [← sub_eq_add_neg]

@[simp] theorem mul_fin_fin (a b : ℝ) : mul (fin a) (fin b) = fin (a * b) := rfl

@[simp] theorem sin_fin (a : ℝ) : sin (fin a) = fin (Real.sin a) := rfl

@[simp] theorem cos_fin (a : ℝ) : cos (fin a) = fin (Real.cos a) := rfl

@[simp] theorem sin_nan : sin nan = nan := rfl

@[simp] theorem cos_nan : cos nan = nan := rfl

@[simp] theorem atan2_fin_fin (y x : ℝ) : atan2 (fin y) (fin x) = fin (realAtan2 y x) := rfl

@[simp] theorem nan_add (x : JSNum) : add nan x = nan := by cases x <;> rfl

@[simp] theorem add_nan (x : JSNum) : add x nan = nan := by cases x <;> rfl

@[simp] theorem nan_mul (x : JSNum) : mul nan x = nan := by cases x <;> rfl

@[simp] theorem mul_nan (x : JSNum) : mul x nan = nan := by cases x <;> rfl

@[simp] theorem nan_sub (x : JSNum) : sub nan x = nan := by cases x <;> rfl

@[simp] theorem sub_nan (x : JSNum) : sub x nan = nan := by cases x <;> rfl

@[simp] theorem nan_div (x : JSNum) : div nan x = nan := by cases x <;> rfl

@[simp] theorem div_nan (x : JSNum) : div x nan = nan := by cases x <;> rfl

@[simp] theorem sqrt_nan : sqrt nan = nan := rfl

@[simp] theorem atan2_nan (x : JSNum) : atan2 nan x = nan := by cases x <;> rfl

@[simp] theorem nan_greaterThan (x : JSNum) : greaterThan nan x = false := by cases x <;> rfl

theorem div_fin_fin {b : ℝ} (a : ℝ) (hb : b ≠ 0) : div (fin a) (fin b) = fin (a / b) := by
  simp [div, hb]

@[simp] theorem div_fin_180 (a : ℝ) : div (fin a) (fin 180) = fin (a / 180) :=
  div_fin_fin a (by norm_num)

@[simp] theorem div_fin_two (a : ℝ) : div (fin a) (fin 2) = fin (a / 2) :=
  div_fin_fin a (by norm_num)

@[simp] theorem div_fin_one (a : ℝ) : div (fin a) (fin 1) = fin a := by
  rw [div_fin_fin a one_ne_zero, div_one]

theorem sqrt_fin_of_nonneg {a : ℝ} (h : 0 ≤ a) : sqrt (fin a) = fin (Real.sqrt a) := by
  simp [sqrt, not_lt.mpr h]

@[simp] theorem greaterThan_fin_fin (a b : ℝ) :
    greaterThan (fin a) (fin b) = decide (b < a) := rfl

theorem add_notFinite_left {x : JSNum} (y : JSNum) (h : x.isFinite = false) :
    (add x y).isFinite = false := by
  cases x <;> cases y <;> simp_all [add, isFinite]

theorem add_notFinite_right (x : JSNum) {y : JSNum} (h : y.isFinite = false) :
    (add x y).isFinite = false := by
  cases x <;> cases y <;> simp_all [add, isFinite]

theorem neg_notFinite {x : JSNum} (h : x.isFinite = false) : x.neg.isFinite = false := by
  cases x <;> simp_all [neg, isFinite]

theorem sub_notFinite_left {x : JSNum} (y : JSNum) (h : x.isFinite = false) :
    (sub x y).isFinite = false :=
  add_notFinite_left _ h

theorem sub_notFinite_right (x : JSNum) {y : JSNum} (h : y.isFinite = false) :
    (sub x y).isFinite = false :=
  add_notFinite_right _ (neg_notFinite h)

theorem isFinite_ite_inf (b : ℝ) (u v : JSNum) (hu : u.isFinite = false)
    (hv : v.isFinite = false) :
    (if b = 0 then nan else if 0 < b then u else v).isFinite = false := by
  split
  · rfl
  · split
    · exact hu
    · exact hv

theorem mul_notFinite_left {x : JSNum} (y : JSNum) (h : x.isFinite = false) :
    (mul x y).isFinite = false := by
  cases x with
  | fin a => simp at h
  | nan => cases y <;> rfl
  | posInf =>
    cases y with
    | nan => rfl
    | posInf => rfl
    | negInf => rfl
    | fin b => exact isFinite_ite_inf b posInf negInf rfl rfl
  | negInf =>
    cases y with
    | nan => rfl
    | posInf => rfl
    | negInf => rfl
    | fin b => exact isFinite_ite_inf b negInf posInf rfl rfl

theorem mul_notFinite_right (x : JSNum) {y : JSNum} (h : y.isFinite = false) :
    (mul x y).isFinite = false := by
  cases y with
  | fin a => simp at h
  | nan => cases x <;> rfl
  | posInf =>
    cases x with
    | nan => rfl
    | posInf => rfl
    | negInf => rfl
    | fin a => exact isFinite_ite_inf a posInf negInf rfl rfl
  | negInf =>
    cases x with
    | nan => rfl
    | posInf => rfl
    | negInf => rfl
    | fin a => exact isFinite_ite_inf a negInf posInf rfl rfl

end JSNum

theorem wgs84E2_pos : 0 < wgs84E2 := by norm_num [wgs84E2, wgs84F]

theorem wgs84E2_lt_one : wgs84E2 < 1 := by norm_num [wgs84E2, wgs84F]

theorem ecef_denom_pos (lat : ℝ) : 0 < 1 - wgs84E2 * (Real.sin lat * Real.sin lat) := by
  have hs1 : Real.sin lat * Real.sin lat ≤ 1 := by
    nlinarith [Real.neg_one_le_sin lat, Real.sin_le_one lat]
  have hs0 : 0 ≤ Real.sin lat * Real.sin lat := mul_self_nonneg _
  nlinarith [wgs84E2_pos, wgs84E2_lt_one]

theorem geodeticToEcef_fin (lat lon hgt : ℝ) :
    geodeticToEcef (.fin lat) (.fin lon) (.fin hgt) =
      { X := .fin ((primeVerticalN lat + hgt) * Real.cos lat * Real.cos lon)
        Y := .fin ((primeVerticalN lat + hgt) * Real.cos lat * Real.sin lon)
        Z := .fin ((primeVerticalN lat * (1 - wgs84E2) + hgt) * Real.sin lat) } := by
  have hpos := ecef_denom_pos lat
  have hne : Real.sqrt (1 - wgs84E2 * (Real.sin lat * Real.sin lat)) ≠ 0 :=
    ne_of_gt (Real.sqrt_pos.mpr hpos)
  unfold geodeticToEcef
  simp only [JSNum.sin_fin, JSNum.cos_fin, JSNum.mul_fin_fin, JSNum.sub_fin_fin]
  rw [JSNum.sqrt_fin_of_nonneg (by linarith), JSNum.div_fin_fin _ hne]
  simp only [JSNum.add_fin_fin, JSNum.mul_fin_fin, JSNum.sub_fin_fin,
    primeVerticalN]

theorem haversine_a_bounds (x y t : ℝ) (h0 : 0 ≤ t) (h1 : t ≤ 1) :
    0 ≤ Real.sin ((y - x) / 2) ^ 2 + Real.cos x * Real.cos y * t ∧
      Real.sin ((y - x) / 2) ^ 2 + Real.cos x * Real.cos y * t ≤ 1 := by
  have hs : Real.sin ((y - x) / 2) ^ 2 = 1 / 2 - Real.cos (y - x) / 2 := by
    have h := Real.sin_sq_eq_half_sub ((y - x) / 2)
    rwa [show 2 * ((y - x) / 2) = y - x by ring] at h
  have hsub : Real.cos (y - x) = Real.cos y * Real.cos x + Real.sin y * Real.sin x :=
    Real.cos_sub y x
  have hadd : Real.cos (y + x) = Real.cos y * Real.cos x - Real.sin y * Real.sin x :=
    Real.cos_add y x
  have hb1 : Real.cos (y - x) ≤ 1 := Real.cos_le_one _
  have hb2 : -1 ≤ Real.cos (y - x) := Real.neg_one_le_cos _
  have hb3 : Real.cos (y + x) ≤ 1 := Real.cos_le_one _
  have hb4 : -1 ≤ Real.cos (y + x) := Real.neg_one_le_cos _
  rcases le_or_lt 0 (Real.cos x * Real.cos y) with hA | hA
  · constructor
    · nlinarith [mul_nonneg hA h0]
    · nlinarith [mul_le_of_le_one_right hA h1]
  · constructor
    · nlinarith [mul_nonneg (by linarith : (0:ℝ) ≤ -(Real.cos x * Real.cos y))
        (by linarith : (0:ℝ) ≤ 1 - t)]
    · nlinarith [mul_nonneg (by linarith : (0:ℝ) ≤ -(Real.cos x * Real.cos y)) h0]

theorem calculateDistance_eq_fin (lat1 lon1 lat2 lon2 : ℝ) :
    calculateDistance (.fin lat1) (.fin lon1) (.fin lat2) (.fin lon2) =
      .fin (greatCircleDistance lat1 lon1 lat2 lon2) := by
  have hbounds := haversine_a_bounds (lat1 * Real.pi / 180) (lat2 * Real.pi / 180)
    (Real.sin ((lon2 - lon1) * Real.pi / 180 / 2) ^ 2)
    (sq_nonneg _) (Real.sin_sq_le_one _)
  have hd : (lat2 * Real.pi / 180 - lat1 * Real.pi / 180) / 2 =
      (lat2 - lat1) * Real.pi / 180 / 2 := by ring
  rw [hd] at hbounds
  have ha : Real.sin ((lat2 - lat1) * Real.pi / 180 / 2) *
        Real.sin ((lat2 - lat1) * Real.pi / 180 / 2) +
      Real.cos (lat1 * Real.pi / 180) * Real.cos (lat2 * Real.pi / 180) *
        (Real.sin ((lon2 - lon1) * Real.pi / 180 / 2) *
          Real.sin ((lon2 - lon1) * Real.pi / 180 / 2)) =
      Real.sin ((lat2 - lat1) * Real.pi / 180 / 2) ^ 2 +
      Real.cos (lat1 * Real.pi / 180) * Real.cos (lat2 * Real.pi / 180) *
        Real.sin ((lon2 - lon1) * Real.pi / 180 / 2) ^ 2 := by ring
  unfold calculateDistance greatCircleDistance
  simp only [JSNum.mul_fin_fin, JSNum.sub_fin_fin, JSNum.div_fin_180,
    JSNum.div_fin_two, JSNum.sin_fin, JSNum.cos_fin, JSNum.add_fin_fin]
  rw [ha, JSNum.sqrt_fin_of_nonneg hbounds.1,
    JSNum.sqrt_fin_of_nonneg (by linarith [hbounds.2]),
    JSNum.atan2_fin_fin, JSNum.mul_fin_fin, JSNum.mul_fin_fin]
  congr 1
  ring

theorem realAtan2_zero_one : realAtan2 0 1 = 0 := by
  unfold realAtan2
  rw [if_pos one_pos]
  norm_num [Real.arctan_zero]

theorem greatCircleDistance_self (lat lon : ℝ) :
    greatCircleDistance lat lon lat lon = 0 := by
  unfold greatCircleDistance
  simp [sub_self, Real.sqrt_one, realAtan2_zero_one]

theorem calculateDistance_nan_lat2 (lat1 lon1 lon2 : JSNum) :
    calculateDistance lat1 lon1 JSNum.nan lon2 = JSNum.nan := by
  unfold calculateDistance
  simp

theorem handleRefined_currentPosition (c : ClientInfo) (p : Pos) :
    (handleRefined c p).1.currentPosition = some p := by
  unfold handleRefined
  cases c.initialPosition with
  | none => rfl
  | some i =>
    simp only []
    split
    · split
      · rfl
      · rfl
    · split
      · rfl
      · split
        · rfl
        · rfl

theorem handleRefined_preserves_ref (c : ClientInfo) (p r : Pos)
    (h : c.initialPosition = some r) :
    (handleRefined c p).1.initialPosition = some r := by
  unfold handleRefined
  rw [h]
  simp only []
  split
  · split
    · rfl
    · rfl
  · split
    · rfl
    · split
      · rfl
      · rfl

/-- Claim C2: with a reference set and the session settled, a refined
sample whose haversine distance from the reference is exactly the 50 m
threshold does not move the state to `off_boundaries`, while a sample
strictly beyond 50 m moves the state to `off_boundaries` and emits the
boundary-crossed (`off_boundaries`) notification. -/
theorem boundary_threshold_inclusive (c : ClientInfo) (rlat rlon plat plon : ℝ)
    (href : c.initialPosition = some { refined_lon := .fin rlon, refined_lat := .fin rlat })
    (hst : c.state = ClientState.accept ∨ c.state = ClientState.ok) :
    (greatCircleDistance rlat rlon plat plon = 50 →
      (handleRefined c { refined_lon := .fin plon, refined_lat := .fin plat }).1.state ≠
        ClientState.off_boundaries) ∧
    (50 < greatCircleDistance rlat rlon plat plon →
      (handleRefined c { refined_lon := .fin plon, refined_lat := .fin plat }).1.state =
        ClientState.off_boundaries ∧
      (handleRefined c { refined_lon := .fin plon, refined_lat := .fin plat }).2 =
        [Event.off_boundaries { refined_lon := .fin plon, refined_lat := .fin plat }]) := by
  constructor
  · intro h50
    have hnot : ¬ (50 : ℝ) < greatCircleDistance rlat rlon plat plon := by
      rw [h50]
      exact lt_irrefl 50
    rcases hst with h | h <;>
      simp [handleRefined, href, calculateDistance_eq_fin, boundaryThreshold, hnot, h]
  · intro h50
    rcases hst with h | h <;>
      simp [handleRefined, href, calculateDistance_eq_fin, boundaryThreshold, h50, h]

theorem boundary_threshold_inclusive_witness :
    (greatCircleDistance 0 0 0 0 = 50 →
      (handleRefined
        { currentPosition := none,
          initialPosition := some { refined_lon := .fin 0, refined_lat := .fin 0 },
          state := ClientState.ok }
        { refined_lon := .fin 0, refined_lat := .fin 0 }).1.state ≠
        ClientState.off_boundaries) ∧
    (50 < greatCircleDistance 0 0 0 0 →
      (handleRefined
        { currentPosition := none,
          initialPosition := some { refined_lon := .fin 0, refined_lat := .fin 0 },
          state := ClientState.ok }
        { refined_lon := .fin 0, refined_lat := .fin 0 }).1.state =
        ClientState.off_boundaries ∧
      (handleRefined
        { currentPosition := none,
          initialPosition := some { refined_lon := .fin 0, refined_lat := .fin 0 },
          state := ClientState.ok }
        { refined_lon := .fin 0, refined_lat := .fin 0 }).2 =
        [Event.off_boundaries { refined_lon := .fin 0, refined_lat := .fin 0 }]) :=
  boundary_threshold_inclusive _ 0 0 0 0 rfl (Or.inr rfl)

/-- Claim C3: when no reference position is set, the first sample sets the
reference to the refined sample, leaves the session in the concrete
`accept` state (the spec's `Settled`, since a reference is now present),
and emits the `position_status` message `Initial position recorded` (the
spec's `PositionRecorded`). -/
theorem first_sample_records_reference (c : ClientInfo) (lat lon : JSNum)
    (refi : RefineOutcome) (hnone : c.initialPosition = none) :
    (handleUserPosition c lat lon refi).1.initialPosition =
      some (triangulateCoordinate lat lon refi) ∧
    (handleUserPosition c lat lon refi).1.state = ClientState.accept ∧
    specState (handleUserPosition c lat lon refi).1 = SpecState.settled ∧
    (handleUserPosition c lat lon refi).2 =
      [Event.position_status ClientState.accept StatusMsg.initialPositionRecorded
        (triangulateCoordinate lat lon refi)] := by
  simp [handleUserPosition, handleRefined, hnone, specState]

theorem first_sample_records_reference_witness :
    (handleUserPosition
        { currentPosition := none, initialPosition := none, state := ClientState.accept }
        (.fin 1) (.fin 2) RefineOutcome.empty).1.initialPosition =
      some (triangulateCoordinate (.fin 1) (.fin 2) RefineOutcome.empty) ∧
    (handleUserPosition
        { currentPosition := none, initialPosition := none, state := ClientState.accept }
        (.fin 1) (.fin 2) RefineOutcome.empty).1.state = ClientState.accept ∧
    specState (handleUserPosition
        { currentPosition := none, initialPosition := none, state := ClientState.accept }
        (.fin 1) (.fin 2) RefineOutcome.empty).1 = SpecState.settled ∧
    (handleUserPosition
        { currentPosition := none, initialPosition := none, state := ClientState.accept }
        (.fin 1) (.fin 2) RefineOutcome.empty).2 =
      [Event.position_status ClientState.accept StatusMsg.initialPositionRecorded
        (triangulateCoordinate (.fin 1) (.fin 2) RefineOutcome.empty)] :=
  first_sample_records_reference _ _ _ _ rfl

/-- Claim C4 (amended): when a sample neither crosses out of range nor
returns in range, the spec-level state is unchanged but, contrary to the
claim, nothing is emitted in the already-`off_boundaries`-and-far and
already-`ok`-and-near cases; the only `Position updated` emission happens
from the initial `accept` state with a near sample, where the internal
state advances to `ok` (the spec-level state stays `Settled`). -/
theorem no_transition_emission (c : ClientInfo) (rlat rlon plat plon : ℝ)
    (href : c.initialPosition = some { refined_lon := .fin rlon, refined_lat := .fin rlat }) :
    (c.state = ClientState.off_boundaries →
      50 < greatCircleDistance rlat rlon plat plon →
      (handleRefined c { refined_lon := .fin plon, refined_lat := .fin plat }).1.state =
        c.state ∧
      (handleRefined c { refined_lon := .fin plon, refined_lat := .fin plat }).2 = []) ∧
    (c.state = ClientState.ok →
      greatCircleDistance rlat rlon plat plon ≤ 50 →
      (handleRefined c { refined_lon := .fin plon, refined_lat := .fin plat }).1.state =
        c.state ∧
      (handleRefined c { refined_lon := .fin plon, refined_lat := .fin plat }).2 = []) ∧
    (c.state = ClientState.accept →
      greatCircleDistance rlat rlon plat plon ≤ 50 →
      (handleRefined c { refined_lon := .fin plon, refined_lat := .fin plat }).1.state =
        ClientState.ok ∧
      (handleRefined c { refined_lon := .fin plon, refined_lat := .fin plat }).2 =
        [Event.position_status ClientState.ok StatusMsg.positionUpdated
          { refined_lon := .fin plon, refined_lat := .fin plat }] ∧
      specState (handleRefined c { refined_lon := .fin plon, refined_lat := .fin plat }).1 =
        specState c) := by
  refine ⟨?_, ?_, ?_⟩ <;> intro hst hdist
  · simp [handleRefined, href, calculateDistance_eq_fin, boundaryThreshold, hdist, hst]
  · simp [handleRefined, href, calculateDistance_eq_fin, boundaryThreshold,
      not_lt.mpr hdist, hst]
  · simp [handleRefined, href, calculateDistance_eq_fin, boundaryThreshold,
      not_lt.mpr hdist, hst, specState]

theorem no_transition_emission_witness :
    (({ currentPosition := none,
        initialPosition := some { refined_lon := .fin 0, refined_lat := .fin 0 },
        state := ClientState.ok } : ClientInfo).state = ClientState.off_boundaries →
      50 < greatCircleDistance 0 0 0 0 →
      (handleRefined
        { currentPosition := none,
          initialPosition := some { refined_lon := .fin 0, refined_lat := .fin 0 },
          state := ClientState.ok }
        { refined_lon := .fin 0, refined_lat := .fin 0 }).1.state =
        ({ currentPosition := none,
           initialPosition := some { refined_lon := .fin 0, refined_lat := .fin 0 },
           state := ClientState.ok } : ClientInfo).state ∧
      (handleRefined
        { currentPosition := none,
          initialPosition := some { refined_lon := .fin 0, refined_lat := .fin 0 },
          state := ClientState.ok }
        { refined_lon := .fin 0, refined_lat := .fin 0 }).2 = []) ∧
    (({ currentPosition := none,
        initialPosition := some { refined_lon := .fin 0, refined_lat := .fin 0 },
        state := ClientState.ok } : ClientInfo).state = ClientState.ok →
      greatCircleDistance 0 0 0 0 ≤ 50 →
      (handleRefined
        { currentPosition := none,
          initialPosition := some { refined_lon := .fin 0, refined_lat := .fin 0 },
          state := ClientState.ok }
        { refined_lon := .fin 0, refined_lat := .fin 0 }).1.state =
        ({ currentPosition := none,
           initialPosition := some { refined_lon := .fin 0, refined_lat := .fin 0 },
           state := ClientState.ok } : ClientInfo).state ∧
      (handleRefined
        { currentPosition := none,
          initialPosition := some { refined_lon := .fin 0, refined_lat := .fin 0 },
          state := ClientState.ok }
        { refined_lon := .fin 0, refined_lat := .fin 0 }).2 = []) ∧
    (({ currentPosition := none,
        initialPosition := some { refined_lon := .fin 0, refined_lat := .fin 0 },
        state := ClientState.ok } : ClientInfo).state = ClientState.accept →
      greatCircleDistance 0 0 0 0 ≤ 50 →
      (handleRefined
        { currentPosition := none,
          initialPosition := some { refined_lon := .fin 0, refined_lat := .fin 0 },
          state := ClientState.ok }
        { refined_lon := .fin 0, refined_lat := .fin 0 }).1.state = ClientState.ok ∧
      (handleRefined
        { currentPosition := none,
          initialPosition := some { refined_lon := .fin 0, refined_lat := .fin 0 },
          state := ClientState.ok }
        { refined_lon := .fin 0, refined_lat := .fin 0 }).2 =
        [Event.position_status ClientState.ok StatusMsg.positionUpdated
          { refined_lon := .fin 0, refined_lat := .fin 0 }] ∧
      specState (handleRefined
        { currentPosition := none,
          initialPosition := some { refined_lon := .fin 0, refined_lat := .fin 0 },
          state := ClientState.ok }
        { refined_lon := .fin 0, refined_lat := .fin 0 }).1 =
        specState
          { currentPosition := none,
            initialPosition := some { refined_lon := .fin 0, refined_lat := .fin 0 },
            state := ClientState.ok }) :=
  no_transition_emission _ 0 0 0 0 rfl

/-- Claim C4, counterexample: a session already in the `ok` state with a
near sample (distance 0 from the reference) keeps its state but emits
nothing at all, where the claim requires a `PositionUpdated` emission. -/
theorem no_emission_when_settled_cex :
    (handleRefined
      { currentPosition := none,
        initialPosition := some { refined_lon := .fin 0, refined_lat := .fin 0 },
        state := ClientState.ok }
      { refined_lon := .fin 0, refined_lat := .fin 0 }).1.state = ClientState.ok ∧
    (handleRefined
      { currentPosition := none,
        initialPosition := some { refined_lon := .fin 0, refined_lat := .fin 0 },
        state := ClientState.ok }
      { refined_lon := .fin 0, refined_lat := .fin 0 }).2 = [] := by
  have hd : ¬ (50 : ℝ) < greatCircleDistance 0 0 0 0 := by
    rw [greatCircleDistance_self]
    norm_num
  simp [handleRefined, calculateDistance_eq_fin, boundaryThreshold, hd]

/-- Claim C7 (amended): the handler is a total function (every error path
is caught and answered with an `error` emission in the source), and a NaN
sample never overwrites an already-set reference position; but contrary to
the claim the state is not always held: the NaN distance compares as not
greater than the threshold, so an `off_boundaries` session transitions to
`ok` and emits `Back within boundaries`. -/
theorem invalid_sample_reference_held (c : ClientInfo) (lon : JSNum) (r : Pos)
    (href : c.initialPosition = some r) :
    (handleUserPosition c JSNum.nan lon RefineOutcome.failure).1.initialPosition =
      some r ∧
    (c.state = ClientState.off_boundaries →
      (handleUserPosition c JSNum.nan lon RefineOutcome.failure).1.state =
        ClientState.ok ∧
      (handleUserPosition c JSNum.nan lon RefineOutcome.failure).2 =
        [Event.position_status ClientState.ok StatusMsg.backWithinBoundaries
          { refined_lon := lon, refined_lat := JSNum.nan }]) := by
  constructor
  · exact handleRefined_preserves_ref _ _ _ href
  · intro hst
    simp [handleUserPosition, triangulateCoordinate, handleRefined, href,
      calculateDistance_nan_lat2, hst]

theorem invalid_sample_reference_held_witness :
    (handleUserPosition
        { currentPosition := none,
          initialPosition := some { refined_lon := .fin 0, refined_lat := .fin 0 },
          state := ClientState.off_boundaries }
        JSNum.nan (.fin 0) RefineOutcome.failure).1.initialPosition =
      some { refined_lon := .fin 0, refined_lat := .fin 0 } ∧
    (({ currentPosition := none,
        initialPosition := some { refined_lon := .fin 0, refined_lat := .fin 0 },
        state := ClientState.off_boundaries } : ClientInfo).state =
          ClientState.off_boundaries →
      (handleUserPosition
        { currentPosition := none,
          initialPosition := some { refined_lon := .fin 0, refined_lat := .fin 0 },
          state := ClientState.off_boundaries }
        JSNum.nan (.fin 0) RefineOutcome.failure).1.state = ClientState.ok ∧
      (handleUserPosition
        { currentPosition := none,
          initialPosition := some { refined_lon := .fin 0, refined_lat := .fin 0 },
          state := ClientState.off_boundaries }
        JSNum.nan (.fin 0) RefineOutcome.failure).2 =
        [Event.position_status ClientState.ok StatusMsg.backWithinBoundaries
          { refined_lon := .fin 0, refined_lat := JSNum.nan }]) :=
  invalid_sample_reference_held _ _ _ rfl

/-- Claim C7, counterexample: a NaN sample processed while the session is
`off_boundaries` changes the state (to `ok`), where the claim requires the
state to be held unchanged on an invalid sample. -/
theorem invalid_sample_changes_state_cex :
    (handleUserPosition
      { currentPosition := none,
        initialPosition := some { refined_lon := .fin 0, refined_lat := .fin 0 },
        state := ClientState.off_boundaries }
      JSNum.nan (.fin 0) RefineOutcome.failure).1.state = ClientState.ok ∧
    ClientState.ok ≠ ClientState.off_boundaries := by
  constructor
  · simp [handleUserPosition, triangulateCoordinate, handleRefined,
      calculateDistance_nan_lat2]
  · simp

/-- Claim C8: when the external refinement returns no rows or throws, the
handler uses the raw sample coordinates unchanged as the refined position
and continues processing with them (no blocking, no propagated failure). -/
theorem refinement_fallback_raw (c : ClientInfo) (lat lon : JSNum)
    (refi : RefineOutcome)
    (hfail : refi = RefineOutcome.empty ∨ refi = RefineOutcome.failure) :
    triangulateCoordinate lat lon refi = { refined_lon := lon, refined_lat := lat } ∧
    handleUserPosition c lat lon refi =
      handleRefined c { refined_lon := lon, refined_lat := lat } ∧
    (handleUserPosition c lat lon refi).1.currentPosition =
      some { refined_lon := lon, refined_lat := lat } := by
  rcases hfail with h | h <;> subst h <;>
    exact ⟨rfl, rfl, handleRefined_currentPosition _ _⟩

theorem refinement_fallback_raw_witness :
    triangulateCoordinate (.fin 1) (.fin 2) RefineOutcome.failure =
      { refined_lon := .fin 2, refined_lat := .fin 1 } ∧
    handleUserPosition
        { currentPosition := none, initialPosition := none, state := ClientState.accept }
        (.fin 1) (.fin 2) RefineOutcome.failure =
      handleRefined
        { currentPosition := none, initialPosition := none, state := ClientState.accept }
        { refined_lon := .fin 2, refined_lat := .fin 1 } ∧
    (handleUserPosition
        { currentPosition := none, initialPosition := none, state := ClientState.accept }
        (.fin 1) (.fin 2) RefineOutcome.failure).1.currentPosition =
      some { refined_lon := .fin 2, refined_lat := .fin 1 } :=
  refinement_fallback_raw _ _ _ _ (Or.inr rfl)

/-- Claim C9: once a reference position is set, no sequence of subsequent
samples (whatever their refinement outcomes) ever changes it. -/
theorem reference_never_overwritten (c : ClientInfo) (r : Pos)
    (samples : List Sample) (href : c.initialPosition = some r) :
    (processSamples c samples).initialPosition = some r := by
  induction samples generalizing c with
  | nil => simpa [processSamples] using href
  | cons s ss ih =>
    exact ih _ (handleRefined_preserves_ref _ _ _ href)

theorem reference_never_overwritten_witness :
    (processSamples
      { currentPosition := none,
        initialPosition := some { refined_lon := .fin 0, refined_lat := .fin 0 },
        state := ClientState.ok }
      [{ lat := .fin 3, lon := .fin 4, refi := RefineOutcome.empty },
       { lat := JSNum.nan, lon := .fin 5, refi := RefineOutcome.failure }]).initialPosition =
      some { refined_lon := .fin 0, refined_lat := .fin 0 } :=
  reference_never_overwritten _ _ _ rfl

/-- Claim C5: the distance used for the threshold test is exactly the
haversine great-circle distance on the mean Earth radius 6,371,000 m, with
degree inputs converted to radians: the source's decimal/float mix
refines the spec formula `2 R atan2(sqrt a, sqrt (1 - a))` on the nose for
all finite inputs. -/
theorem distance_haversine_formula (lat1 lon1 lat2 lon2 : ℝ) :
    calculateDistance (.fin lat1) (.fin lon1) (.fin lat2) (.fin lon2) =
      .fin (greatCircleDistance lat1 lon1 lat2 lon2) :=
  calculateDistance_eq_fin lat1 lon1 lat2 lon2

/-- Claim C1 (amended): with finite latitude, longitude, vector components
and a finite (or absent) height, resolving a vector with observer equal to
creator returns the input vector exactly in the real-number model, in
particular within 1e-9 m per component.  (The finiteness of the height and
of the vector must be assumed: a NaN height is accepted by the code and
contaminates the result, see the counterexample.) -/
theorem selfObservation_exact (lat lon e n u : ℝ) (hopt : Option ℝ) :
    computeAssetPlacementVector
      { lat := .fin lat, lon := .fin lon, h := hopt.map .fin }
      { lat := .fin lat, lon := .fin lon, h := hopt.map .fin }
      { e := .fin e, n := .fin n, u := .fin u } =
    .ok { e := .fin e, n := .fin n, u := .fin u } := by
  have hh : effectiveHeight (hopt.map JSNum.fin) = .fin (hopt.getD 370) := by
    cases hopt <;> rfl
  unfold computeAssetPlacementVector
  rw [hh]
  simp only [JSNum.isFinite_fin, Bool.not_true, Bool.false_or, Bool.or_self,
    Bool.false_eq_true, if_false, deg2rad, JSNum.mul_fin_fin, JSNum.div_fin_180,
    geodeticToEcef_fin, enuToEcefDelta, ecefDeltaToEnu, JSNum.sin_fin,
    JSNum.cos_fin, JSNum.neg_fin, JSNum.add_fin_fin, JSNum.sub_fin_fin,
    JSNum.mul_fin_fin, Except.ok.injEq, RelativeVec.mk.injEq, JSNum.fin.injEq]
  refine ⟨?_, ?_, ?_⟩
  · linear_combination e * Real.sin_sq_add_cos_sq (lon * Real.pi / 180)
  · linear_combination
      (n * Real.sin (lat * Real.pi / 180) ^ 2 -
        u * Real.sin (lat * Real.pi / 180) * Real.cos (lat * Real.pi / 180)) *
        Real.sin_sq_add_cos_sq (lon * Real.pi / 180) +
      n * Real.sin_sq_add_cos_sq (lat * Real.pi / 180)
  · linear_combination
      (u * Real.cos (lat * Real.pi / 180) ^ 2 -
        n * Real.sin (lat * Real.pi / 180) * Real.cos (lat * Real.pi / 180)) *
        Real.sin_sq_add_cos_sq (lon * Real.pi / 180) +
      u * Real.sin_sq_add_cos_sq (lat * Real.pi / 180)

/-- Claim C1, counterexample: a position with finite latitude/longitude but
NaN height is accepted, and self-observation then returns an all-NaN
vector, which is not within 1e-9 m of the input vector in any component. -/
theorem selfObservation_nan_height_cex :
    computeAssetPlacementVector
      { lat := .fin 0, lon := .fin 0, h := some JSNum.nan }
      { lat := .fin 0, lon := .fin 0, h := some JSNum.nan }
      { e := .fin 1, n := .fin 2, u := .fin 3 } =
      .ok { e := JSNum.nan, n := JSNum.nan, u := JSNum.nan } ∧
    ¬ withinTol JSNum.nan (.fin 1) 1e-9 := by
  constructor
  · simp [computeAssetPlacementVector, effectiveHeight, deg2rad, geodeticToEcef,
      enuToEcefDelta, ecefDeltaToEnu, Real.sin_zero, Real.cos_zero, zero_mul,
      mul_zero, zero_div, sub_zero, neg_zero]
  · rintro ⟨x, y, hx, -, -⟩
    exact JSNum.noConfusion hx

/-- Claim C6 (amended): the validation gate of
`computeAssetPlacementVector` tests exactly the finiteness of the four
lat/lon fields: the call errors with `Invalid lat/lon.` (before any
computation) precisely when one of them is non-finite, and returns a
result for every finite input, including out-of-range values such as
latitude 200. -/
theorem validation_finiteness (creator user : Geo) (v : RelativeVec) :
    ((∃ r, computeAssetPlacementVector creator user v = .ok r) ↔
      (creator.lat.isFinite = true ∧ creator.lon.isFinite = true ∧
        user.lat.isFinite = true ∧ user.lon.isFinite = true)) ∧
    (¬(creator.lat.isFinite = true ∧ creator.lon.isFinite = true ∧
        user.lat.isFinite = true ∧ user.lon.isFinite = true) →
      computeAssetPlacementVector creator user v = .error "Invalid lat/lon.") := by
  cases hb1 : creator.lat.isFinite <;> cases hb2 : creator.lon.isFinite <;>
    cases hb3 : user.lat.isFinite <;> cases hb4 : user.lon.isFinite <;>
    simp [computeAssetPlacementVector, hb1, hb2, hb3, hb4]

theorem validation_finiteness_witness :
    ((∃ r, computeAssetPlacementVector
        { lat := JSNum.nan, lon := .fin 0, h := none }
        { lat := .fin 0, lon := .fin 0, h := none }
        { e := .fin 0, n := .fin 0, u := .fin 0 } = .ok r) ↔
      ((JSNum.nan).isFinite = true ∧ (JSNum.fin 0).isFinite = true ∧
        (JSNum.fin 0).isFinite = true ∧ (JSNum.fin 0).isFinite = true)) ∧
    (¬((JSNum.nan).isFinite = true ∧ (JSNum.fin 0).isFinite = true ∧
        (JSNum.fin 0).isFinite = true ∧ (JSNum.fin 0).isFinite = true) →
      computeAssetPlacementVector
        { lat := JSNum.nan, lon := .fin 0, h := none }
        { lat := .fin 0, lon := .fin 0, h := none }
        { e := .fin 0, n := .fin 0, u := .fin 0 } = .error "Invalid lat/lon.") :=
  validation_finiteness
    { lat := JSNum.nan, lon := .fin 0, h := none }
    { lat := .fin 0, lon := .fin 0, h := none }
    { e := .fin 0, n := .fin 0, u := .fin 0 }

/-- Claim C6, counterexample: latitude 200 is out of range (|lat| > 90) but
finite, and the call succeeds instead of failing with the InvalidPosition
error required by the claim. -/
theorem validation_out_of_range_cex :
    (∃ r, computeAssetPlacementVector
      { lat := .fin 200, lon := .fin 0, h := none }
      { lat := .fin 0, lon := .fin 0, h := none }
      { e := .fin 0, n := .fin 0, u := .fin 0 } = .ok r) ∧
    (90 : ℝ) < 200 :=
  ⟨⟨_, rfl⟩, by norm_num⟩

theorem geodeticToEcef_notFinite_height (latRad lonRad hgt : JSNum)
    (h : hgt.isFinite = false) :
    ((geodeticToEcef latRad lonRad hgt).X.isFinite = false) ∧
    ((geodeticToEcef latRad lonRad hgt).Y.isFinite = false) ∧
    ((geodeticToEcef latRad lonRad hgt).Z.isFinite = false) := by
  simp only [geodeticToEcef]
  exact ⟨JSNum.mul_notFinite_left _ (JSNum.mul_notFinite_left _
            (JSNum.add_notFinite_right _ h)),
         JSNum.mul_notFinite_left _ (JSNum.mul_notFinite_left _
            (JSNum.add_notFinite_right _ h)),
         JSNum.mul_notFinite_left _ (JSNum.add_notFinite_right _ h)⟩

theorem ecefDeltaToEnu_notFinite_dX (dX dY dZ latRad lonRad : JSNum)
    (h : dX.isFinite = false) :
    ((ecefDeltaToEnu dX dY dZ latRad lonRad).e.isFinite = false) ∧
    ((ecefDeltaToEnu dX dY dZ latRad lonRad).n.isFinite = false) ∧
    ((ecefDeltaToEnu dX dY dZ latRad lonRad).u.isFinite = false) := by
  simp only [ecefDeltaToEnu]
  exact ⟨JSNum.add_notFinite_left _ (JSNum.mul_notFinite_right _ h),
         JSNum.add_notFinite_left _ (JSNum.add_notFinite_left _
            (JSNum.mul_notFinite_right _ h)),
         JSNum.add_notFinite_left _ (JSNum.add_notFinite_left _
            (JSNum.mul_notFinite_right _ h))⟩

/-- Claim C10: only latitude and longitude are validated, not height: a
non-finite height on the creator or the observer is accepted without
error and contaminates every component of the returned vector (none is
finite), and the 370 m default is substituted only when the height field
is absent, never when it is present but non-finite. -/
theorem height_not_validated (clat clon ulat ulon : ℝ) (ch uh : Option JSNum)
    (v : RelativeVec)
    (hnf : (effectiveHeight ch).isFinite = false ∨
      (effectiveHeight uh).isFinite = false) :
    (∃ r, computeAssetPlacementVector
        { lat := .fin clat, lon := .fin clon, h := ch }
        { lat := .fin ulat, lon := .fin ulon, h := uh } v = .ok r ∧
      r.e.isFinite = false ∧ r.n.isFinite = false ∧ r.u.isFinite = false) ∧
    effectiveHeight none = .fin 370 ∧
    (∀ x : JSNum, effectiveHeight (some x) = x) := by
  rcases hnf with h | h <;> refine ⟨⟨_, rfl, ?_, ?_, ?_⟩, rfl, fun x => rfl⟩
  · exact (ecefDeltaToEnu_notFinite_dX _ _ _ _ _
      (JSNum.sub_notFinite_left _ (JSNum.add_notFinite_left _
        (geodeticToEcef_notFinite_height _ _ _ h).1))).1
  · exact (ecefDeltaToEnu_notFinite_dX _ _ _ _ _
      (JSNum.sub_notFinite_left _ (JSNum.add_notFinite_left _
        (geodeticToEcef_notFinite_height _ _ _ h).1))).2.1
  · exact (ecefDeltaToEnu_notFinite_dX _ _ _ _ _
      (JSNum.sub_notFinite_left _ (JSNum.add_notFinite_left _
        (geodeticToEcef_notFinite_height _ _ _ h).1))).2.2
  · exact (ecefDeltaToEnu_notFinite_dX _ _ _ _ _
      (JSNum.sub_notFinite_right _
        (geodeticToEcef_notFinite_height _ _ _ h).1)).1
  · exact (ecefDeltaToEnu_notFinite_dX _ _ _ _ _
      (JSNum.sub_notFinite_right _
        (geodeticToEcef_notFinite_height _ _ _ h).1)).2.1
  · exact (ecefDeltaToEnu_notFinite_dX _ _ _ _ _
      (JSNum.sub_notFinite_right _
        (geodeticToEcef_notFinite_height _ _ _ h).1)).2.2

theorem height_not_validated_witness :
    (∃ r, computeAssetPlacementVector
        { lat := .fin 0, lon := .fin 0, h := some JSNum.nan }
        { lat := .fin 0, lon := .fin 0, h := none }
        { e := .fin 0, n := .fin 0, u := .fin 0 } = .ok r ∧
      r.e.isFinite = false ∧ r.n.isFinite = false ∧ r.u.isFinite = false) ∧
    effectiveHeight none = .fin 370 ∧
    (∀ x : JSNum, effectiveHeight (some x) = x) :=
  height_not_validated 0 0 0 0 (some JSNum.nan) none
    { e := .fin 0, n := .fin 0, u := .fin 0 } (Or.inl rfl)

end CampusLens
